import Mathlib

/-!
Shallow embedding of `custom_components/unraid/sensors/system.py`.

The module defines Home Assistant sensor entities for an Unraid host.  Each
sensor owns a `value_fn` (and sometimes an `available_fn`) that extracts one
metric from a nested snapshot dictionary.  We model Python values with the
inductive `PyVal`, Python exceptions with `PyErr` (fallible operations return
`Except PyErr _`), Python floats with `ℚ` (exact rational arithmetic), and the
handful of string/number primitives the file uses (`str.replace`, `str.strip`,
`str.lower`, `in` substring/key tests, `float()`, `round(_, 1)`, `divmod`).

Modelling notes, applying to all definitions below:
* dictionaries are association lists with distinct keys, iterated in order,
  as Python dicts iterate in insertion order;
* `float()` is modelled on the decimal literal grammar
  `[sign] (digits [. digits] | . digits) [(e|E) [sign] digits]` (after
  stripping whitespace); the `inf`/`nan` spellings and digit underscores are
  not modelled;
* `round(x, 1)` rounds half to even, as Python's `round` does;
* `str()` of a float is rendered for values with a finite decimal expansion;
  `str()` of a dict is abstracted to a brace rendering, which (like Python's)
  can never parse as a number.
-/

set_option maxHeartbeats 1000000
set_option maxRecDepth 8000

/-- Characters treated as whitespace by Python's `str.strip` / `float()`. -/
def isSpaceChar (c : Char) : Bool :=
  c = ' ' || c = '\t' || c = '\n' || c = '\r' || c = '\x0b' || c = '\x0c'

/-- Model of Python `str.strip()` on a character list. -/
def trimChars (cs : List Char) : List Char :=
  ((cs.dropWhile isSpaceChar).reverse.dropWhile isSpaceChar).reverse

/-- Is `sub` a contiguous substring of `hay`?  Model of Python's `in` on
strings. -/
def hasSubstring (hay sub : List Char) : Bool :=
  match hay with
  | [] => sub.isEmpty
  | c :: rest => sub.isPrefixOf (c :: rest) || hasSubstring rest sub

/-- Model of Python `sub in hay` for strings. -/
def strContains (hay sub : String) : Bool :=
  hasSubstring hay.toList sub.toList

/-- Model of Python `str.lower()` (ASCII letters, which is all the data
contains). -/
def strLower (s : String) : String :=
  String.mk (s.toList.map Char.toLower)

/-- Fuel-indexed worker for `replaceAll`.  The fuel is the length of the
input list, which suffices because each step consumes at least one input
character (the pattern is non-empty whenever a replacement happens). -/
def replaceFuel : Nat → List Char → List Char → List Char → List Char
  | 0, cs, _, _ => cs
  | _ + 1, [], _, _ => []
  | fuel + 1, c :: rest, pat, rep =>
      if !pat.isEmpty && pat.isPrefixOf (c :: rest) then
        rep ++ replaceFuel fuel (List.drop pat.length (c :: rest)) pat rep
      else
        c :: replaceFuel fuel rest pat rep

/-- Model of Python `str.replace(pat, rep)`: replace every occurrence,
scanning left to right. -/
def replaceAll (cs pat rep : List Char) : List Char :=
  replaceFuel cs.length cs pat rep

/-- Value of a list of decimal digit characters. -/
def digitsVal (cs : List Char) : Nat :=
  cs.foldl (fun a c => 10 * a + (c.toNat - 48)) 0

/-- Split a character list at every occurrence of `sep`. -/
def splitOnChar (sep : Char) : List Char → List (List Char)
  | [] => [[]]
  | c :: rest =>
      let r := splitOnChar sep rest
      if c = sep then
        [] :: r
      else
        match r with
        | [] => [[c]]
        | g :: gs => (c :: g) :: gs

/-- Mantissa of a Python float literal: `digits [. digits]` or `. digits`
(at least one digit overall). -/
def parseMantissa (cs : List Char) : Option ℚ :=
  match splitOnChar '.' cs with
  | [ip] =>
      if ip ≠ [] ∧ ip.all Char.isDigit then
        some ((digitsVal ip : ℚ))
      else
        Option.none
  | [ip, fp] =>
      if (ip ≠ [] ∨ fp ≠ []) ∧ ip.all Char.isDigit ∧ fp.all Char.isDigit then
        some ((digitsVal ip : ℚ) + (digitsVal fp : ℚ) / ((10 ^ fp.length : Nat) : ℚ))
      else
        Option.none
  | _ => Option.none

/-- Exponent part of a Python float literal: optional sign then digits. -/
def parseExpPart (cs : List Char) : Option ℤ :=
  match cs with
  | '+' :: rest =>
      if rest ≠ [] ∧ rest.all Char.isDigit then some ((digitsVal rest : ℤ))
      else Option.none
  | '-' :: rest =>
      if rest ≠ [] ∧ rest.all Char.isDigit then some (-(digitsVal rest : ℤ))
      else Option.none
  | rest =>
      if rest ≠ [] ∧ rest.all Char.isDigit then some ((digitsVal rest : ℤ))
      else Option.none

/-- Model of `10.0 ** e` for an integer exponent, written so that it evaluates by
kernel reduction. -/
def pow10z : ℤ → ℚ
  | .ofNat n => ((10 ^ n : Nat) : ℚ)
  | .negSucc n => 1 / ((10 ^ (n + 1) : Nat) : ℚ)

/-- Model of Python `float(s)` on the character list of `s`: strip
whitespace, optional sign, mantissa, optional exponent.  Returns `none`
where Python raises `ValueError`. -/
def parseFloatChars (cs0 : List Char) : Option ℚ :=
  let cs := (trimChars cs0).map Char.toLower
  let sgn : ℚ := match cs with
    | '-' :: _ => -1
    | _ => 1
  let body : List Char := match cs with
    | '+' :: rest => rest
    | '-' :: rest => rest
    | rest => rest
  match splitOnChar 'e' body with
  | [m] => (parseMantissa m).map (fun q => sgn * q)
  | [m, ex] => do
      let mv ← parseMantissa m
      let ev ← parseExpPart ex
      pure (sgn * mv * pow10z ev)
  | _ => Option.none

/-- Model of Python `float(s)` for a string. -/
def parseFloatStr (s : String) : Option ℚ :=
  parseFloatChars s.toList

/-- Round half to even to an integer, as Python's `round` does. -/
def rhe (y : ℚ) : ℤ :=
  if y - (⌊y⌋ : ℚ) < 1 / 2 then ⌊y⌋
  else if 1 / 2 < y - (⌊y⌋ : ℚ) then ⌊y⌋ + 1
  else if ⌊y⌋ % 2 = 0 then ⌊y⌋ else ⌊y⌋ + 1

/-- Model of Python `round(q, 1)` on a float value. -/
def roundTo1 (q : ℚ) : ℚ :=
  ((rhe (10 * q) : ℚ)) / 10

/-- Model of Python `int(f)` on a float: truncation toward zero. -/
def int_of_float (q : ℚ) : ℤ :=
  if 0 ≤ q then ⌊q⌋ else -⌊-q⌋

/-- The Python exceptions the modelled module can raise or catch. -/
inductive PyErr where
  | keyError
  | valueError
  | typeError
  | attributeError

/-- Python values occurring in the coordinator snapshot: `None`, ints,
floats (as exact rationals), strings, and string-keyed dicts. -/
inductive PyVal where
  | vNone : PyVal
  | vInt : ℤ → PyVal
  | vFloat : ℚ → PyVal
  | vStr : String → PyVal
  | vDict : List (String × PyVal) → PyVal

/-- First binding of a key in an association list (Python dict lookup;
keys are distinct in an actual dict, so first = only). -/
def dictLookup : List (String × PyVal) → String → Option PyVal
  | [], _ => Option.none
  | kv :: rest, k => if kv.1 = k then some kv.2 else dictLookup rest k

namespace PyVal

/-- Model of Python `d.get(k, dflt)`: `AttributeError` on non-dicts. -/
def getD : PyVal → String → PyVal → Except PyErr PyVal
  | vDict es, k, dflt => .ok ((dictLookup es k).getD dflt)
  | _, _, _ => .error .attributeError

/-- Model of Python `d[k]` subscription with a string key: `KeyError` on a
missing key, `TypeError` on non-subscriptable values (and on string
subscription with a non-integer index). -/
def getItem : PyVal → String → Except PyErr PyVal
  | vDict es, k =>
      match dictLookup es k with
      | some v => .ok v
      | Option.none => .error .keyError
  | _, _ => .error .typeError

/-- Model of Python `v is None`. -/
def isNone : PyVal → Bool
  | vNone => true
  | _ => false

/-- Model of Python `isinstance(v, (str, float))`. -/
def isStrOrFloat : PyVal → Bool
  | vStr _ => true
  | vFloat _ => true
  | _ => false

end PyVal

/-- Model of Python `k in d`: key test on dicts, substring test on strings,
`TypeError` otherwise. -/
def pyContains : PyVal → String → Except PyErr Bool
  | .vDict es, k => .ok (es.any (fun kv => kv.1 = k))
  | .vStr s, k => .ok (strContains s k)
  | _, _ => .error .typeError

/-- Model of Python `d.values()`: `AttributeError` on non-dicts. -/
def dictValues : PyVal → Except PyErr (List PyVal)
  | .vDict es => .ok (es.map Prod.snd)
  | _ => .error .attributeError

/-- Model of Python `d.items()`: `AttributeError` on non-dicts. -/
def dictItems : PyVal → Except PyErr (List (String × PyVal))
  | .vDict es => .ok es
  | _ => .error .attributeError

/-- Model of Python `str()` on a float whose value has a finite decimal
expansion (17 fractional digits suffice for every value the modelled data
can hold). -/
def floatStr (q : ℚ) : String :=
  let sign := if q < 0 then "-" else ""
  let a : ℚ := |q|
  let ip : Nat := (⌊a⌋).toNat
  let fracN : Nat := (⌊(a - (ip : ℚ)) * ((10 ^ 17 : Nat) : ℚ)⌋).toNat
  let raw := Nat.toDigits 10 fracN
  let padded := List.replicate (17 - raw.length) '0' ++ raw
  let kept := (padded.reverse.dropWhile (fun c => c = '0')).reverse
  let fracS := if kept.isEmpty then "0" else String.mk kept
  sign ++ toString ip ++ "." ++ fracS

/-- Model of Python `str(v)`.  The dict rendering is abstracted to `"{}"`:
like Python's brace rendering it can never parse as a number, which is the
only use the modelled code makes of it. -/
def pyStr : PyVal → String
  | .vNone => "None"
  | .vInt n => toString n
  | .vFloat q => floatStr q
  | .vStr s => s
  | .vDict _ => "\x7b\x7d"

/-- Model of Python `float(v)` on a snapshot value: ints and floats convert,
strings parse (`ValueError` on failure), `None` and dicts raise
`TypeError`. -/
def pyFloat : PyVal → Except PyErr ℚ
  | .vInt n => .ok ((n : ℚ))
  | .vFloat q => .ok q
  | .vStr s =>
      match parseFloatStr s with
      | some q => .ok q
      | Option.none => .error .valueError
  | .vNone => .error .typeError
  | .vDict _ => .error .typeError

/-- Model of Python `round(v, 1)` on a snapshot value: ints are returned
unchanged, floats are rounded to one decimal (half to even), everything
else raises `TypeError`. -/
def pyRound1 : PyVal → Except PyErr PyVal
  | .vInt n => .ok (.vInt n)
  | .vFloat q => .ok (.vFloat (roundTo1 q))
  | _ => .error .typeError

/-! ## Sensor embeddings

One definition per function of `system.py`, with the source's names (the
Python leading underscore dropped).  Lambdas passed as `value_fn` /
`available_fn` in `__init__` are named `value_fn` / `available_fn` in the
class's namespace. -/

namespace UnraidCPUUsageSensor

/-- Embeds `value_fn=lambda data: data.get("system_stats", {}).get("cpu_usage")`. -/
def value_fn (data : PyVal) : Except PyErr PyVal := do
  let s ← data.getD "system_stats" (.vDict [])
  s.getD "cpu_usage" .vNone

/-- Embeds `available_fn=lambda data: ("system_stats" in data and
data.get("system_stats", {}).get("cpu_usage") is not None)` -/
def available_fn (data : PyVal) : Except PyErr Bool := do
  let c ← pyContains data "system_stats"
  if c then do
    let s ← data.getD "system_stats" (.vDict [])
    let v ← s.getD "cpu_usage" .vNone
    pure (!(v.isNone))
  else
    pure false

end UnraidCPUUsageSensor

namespace UnraidRAMUsageSensor

/-- Embeds `value_fn=lambda data: round(data.get("system_stats", {})
.get("memory_usage", {}).get("percentage", 0), 1)` — note: no
`available_fn` is declared for this sensor, and the lambda catches no
exception. -/
def value_fn (data : PyVal) : Except PyErr PyVal := do
  let s ← data.getD "system_stats" (.vDict [])
  let m ← s.getD "memory_usage" (.vDict [])
  let p ← m.getD "percentage" (.vInt 0)
  pyRound1 p

end UnraidRAMUsageSensor

namespace UnraidUptimeSensor

/-- Embeds `available_fn=lambda data: ("system_stats" in data and
data.get("system_stats", {}).get("uptime") is not None)` -/
def available_fn (data : PyVal) : Except PyErr Bool := do
  let c ← pyContains data "system_stats"
  if c then do
    let s ← data.getD "system_stats" (.vDict [])
    let v ← s.getD "uptime" .vNone
    pure (!(v.isNone))
  else
    pure false

/-- The extraction-and-conversion prefix of `_format_uptime`:
`float(data.get("system_stats", {}).get("uptime", 0))`.  An
`AttributeError` from `.get` and a `TypeError`/`ValueError` from `float`
are distinguished by the caller, which only catches the latter two. -/
def uptime_seconds (data : PyVal) : Except PyErr ℚ := do
  let s ← data.getD "system_stats" (.vDict [])
  let v ← s.getD "uptime" (.vInt 0)
  pyFloat v

/-- Embeds `_format_uptime`, including the sensor's only mutable field
`self._boot_time` (passed in and returned explicitly), and the current
time `now` (from `dt_util.now()`).  The `try` block catches only
`TypeError` and `ValueError`, returning `"unknown"`; other exceptions
propagate.  In every failing case `_boot_time` keeps its old value,
because the assignment happens after the conversion. -/
def format_uptime (now : ℚ) (data : PyVal) (boot : Option ℚ) :
    Except PyErr String × Option ℚ :=
  match uptime_seconds data with
  | .error .typeError => (.ok "unknown", boot)
  | .error .valueError => (.ok "unknown", boot)
  | .error e => (.error e, boot)
  | .ok u =>
      let n := int_of_float u
      let days := Int.fdiv n 86400
      let r1 := Int.fmod n 86400
      let hours := Int.fdiv r1 3600
      let r2 := Int.fmod r1 3600
      let minutes := Int.fdiv r2 60
      (.ok (toString days ++ "d " ++ toString hours ++ "h " ++
              toString minutes ++ "m"),
       some (now - u))

end UnraidUptimeSensor

namespace UnraidCPUTempSensor

/-- Embeds `_parse_temperature`: strip `°C`, ` C` and `+`, strip whitespace,
convert with `float`, and keep the value only if it lies in `[-50, 150]`;
`ValueError`/`TypeError` and out-of-range values give `None`. -/
def parse_temperature (value : String) : Option ℚ :=
  let cleaned :=
    trimChars (replaceAll (replaceAll (replaceAll value.toList
      ("°C".toList) []) (" C".toList) []) ("+".toList) [])
  match parseFloatChars cleaned with
  | some temp =>
      if -50 ≤ temp ∧ temp ≤ 150 then some temp else Option.none
  | Option.none => Option.none

/-- One `key, value` item of the inner loop of `_get_temperature`: keys
containing both `"CPU"` and `"Temp"` (case-sensitively, per the source)
contribute `_parse_temperature(str(value))` — and the walrus
`if temp := ...:` also drops a parsed value of `0.0`, which is falsy. -/
def item_temp (kv : String × PyVal) : Option ℚ :=
  if strContains kv.1 "CPU" && strContains kv.1 "Temp" then
    match parse_temperature (pyStr kv.2) with
    | some t => if t ≠ 0 then some t else Option.none
    | Option.none => Option.none
  else Option.none

/-- The nested `for` loops of `_get_temperature` collecting `core_temps`
over all sensor groups.  `sensor_data.items()` raises `AttributeError` on
a non-dict group. -/
def collect_core_temps : List PyVal → Except PyErr (List ℚ)
  | [] => .ok []
  | sd :: rest => do
      let items ← dictItems sd
      let more ← collect_core_temps rest
      .ok (items.filterMap item_temp ++ more)

/-- The `try` body of the CPU sensor's `_get_temperature`. -/
def get_temperature_body (data : PyVal) : Except PyErr (Option ℚ) := do
  let ss ← data.getItem "system_stats"
  let temp_data ← ss.getD "temperature_data" (.vDict [])
  let sensors_data ← temp_data.getD "sensors" (.vDict [])
  let svals ← dictValues sensors_data
  let core_temps ← collect_core_temps svals
  if core_temps.length ≠ 0 then
    Except.ok (some (roundTo1 (core_temps.sum / (core_temps.length : ℚ))))
  else
    Except.ok Option.none

/-- Embeds `_get_temperature` of the CPU sensor: average (rounded to one decimal)
of the collected core temperatures, `None` when there are none.  The
`except` clause catches `KeyError`, `ValueError` and `TypeError` (but not
`AttributeError`). -/
def get_temperature (data : PyVal) : Except PyErr (Option ℚ) :=
  match get_temperature_body data with
  | .ok r => .ok r
  | .error .keyError => .ok Option.none
  | .error .valueError => .ok Option.none
  | .error .typeError => .ok Option.none
  | .error e => .error e

end UnraidCPUTempSensor

namespace UnraidMotherboardTempSensor

/-- Embeds `_parse_temperature` of the motherboard sensor (textually identical to
the CPU sensor's). -/
def parse_temperature (value : String) : Option ℚ :=
  let cleaned :=
    trimChars (replaceAll (replaceAll (replaceAll value.toList
      ("°C".toList) []) (" C".toList) []) ("+".toList) [])
  match parseFloatChars cleaned with
  | some temp =>
      if -50 ≤ temp ∧ temp ≤ 150 then some temp else Option.none
  | Option.none => Option.none

/-- The `mb_patterns` priority list from `_get_temperature`. -/
def mb_patterns : List String :=
  ["mb temp", "board temp", "system temp", "motherboard", "systin", "temp1"]

/-- One `key, value` item of the motherboard scan for a given (lowered)
pattern: per the source's guard, only values that are a `str` or `float`
whose lowered key contains the pattern are parsed. -/
def item_temp (pattern_lower : String) (kv : String × PyVal) : Option ℚ :=
  if kv.2.isStrOrFloat && strContains (strLower kv.1) pattern_lower then
    parse_temperature (pyStr kv.2)
  else Option.none

/-- Innermost loop of `_get_temperature`: first key/value item whose value
is a `str` or `float` and whose lowered key contains the pattern, such that
`_parse_temperature(str(value))` is not `None`. -/
def scan_items (pattern_lower : String) :
    List (String × PyVal) → Option ℚ
  | [] => Option.none
  | kv :: rest =>
      if kv.2.isStrOrFloat && strContains (strLower kv.1) pattern_lower then
        match parse_temperature (pyStr kv.2) with
        | some t => some t
        | Option.none => scan_items pattern_lower rest
      else
        scan_items pattern_lower rest

/-- Middle loop: scan every sensor group for one pattern.
`sensor_data.items()` raises `AttributeError` on a non-dict group (caught
by the enclosing `except`). -/
def scan_sensors (pattern_lower : String) :
    List PyVal → Except PyErr (Option ℚ)
  | [] => .ok Option.none
  | sd :: rest => do
      let items ← dictItems sd
      match scan_items pattern_lower items with
      | some t => .ok (some t)
      | Option.none => scan_sensors pattern_lower rest

/-- Outer loop: try each pattern in priority order over all groups. -/
def scan_patterns (svals : List PyVal) :
    List String → Except PyErr (Option ℚ)
  | [] => .ok Option.none
  | p :: rest => do
      match (← scan_sensors (strLower p) svals) with
      | some t => .ok (some t)
      | Option.none => scan_patterns svals rest

/-- The `try` body of the motherboard sensor's `_get_temperature`. -/
def get_temperature_body (data : PyVal) : Except PyErr (Option ℚ) := do
  let ss ← data.getItem "system_stats"
  let temp_data ← ss.getD "temperature_data" (.vDict [])
  let sensors_data ← temp_data.getD "sensors" (.vDict [])
  let svals ← dictValues sensors_data
  scan_patterns svals mb_patterns

/-- Embeds `_get_temperature` of the motherboard sensor.  Its `except` clause
catches `KeyError`, `TypeError`, `ValueError` and `AttributeError` — every
exception the body can produce — so the function never raises. -/
def get_temperature (data : PyVal) : Except PyErr (Option ℚ) :=
  match get_temperature_body data with
  | .ok r => .ok r
  | .error _ => .ok Option.none

end UnraidMotherboardTempSensor

/-! ## Structured snapshots and specification-side functions -/

/-- A snapshot whose `system_stats.temperature_data.sensors` section is a
well-formed mapping of group names to metric mappings. -/
def mkTempSnap (groups : List (String × List (String × PyVal))) : PyVal :=
  .vDict [("system_stats", .vDict [("temperature_data",
    .vDict [("sensors",
      .vDict (groups.map (fun g => (g.1, PyVal.vDict g.2))))])])]

/-- Rounded average of a list of readings, `none` when it is empty. -/
def avg_round1 (l : List ℚ) : Option ℚ :=
  if l.length ≠ 0 then
    some (roundTo1 (l.sum / (l.length : ℚ)))
  else
    Option.none

/-- Specification-side description of the CPU-temperature computation as
the code performs it: case-SENSITIVE `"CPU"`/`"Temp"` substring match,
parsed values equal to `0` dropped (walrus truthiness), rounded average of
the rest. -/
def cpu_temp_of_groups
    (groups : List (String × List (String × PyVal))) : Option ℚ :=
  avg_round1 (groups.flatMap (fun g =>
    g.2.filterMap UnraidCPUTempSensor.item_temp))

/-- The CPU-temperature computation as claim C3 words it: CASE-INSENSITIVE
keyword match, average of ALL successfully parsed matches. -/
def cpu_temp_claimed
    (groups : List (String × List (String × PyVal))) : Option ℚ :=
  avg_round1 (groups.flatMap (fun g => g.2.filterMap (fun kv =>
    if strContains (strLower kv.1) "cpu" && strContains (strLower kv.1) "temp"
    then UnraidCPUTempSensor.parse_temperature (pyStr kv.2)
    else Option.none)))

/-- Specification-side description of the motherboard-temperature scan as
the code performs it: patterns in priority order, all groups per pattern,
only `str`/`float` values considered, first successfully parsed value. -/
def mb_temp_of_groups
    (groups : List (String × List (String × PyVal))) : Option ℚ :=
  UnraidMotherboardTempSensor.mb_patterns.findSome? (fun p =>
    groups.findSome? (fun g =>
      g.2.findSome? (UnraidMotherboardTempSensor.item_temp (strLower p))))

/-- The motherboard-temperature scan as claim C4 words it: the first VALUE
(of any type) under a matching label that parses to a valid number. -/
def mb_temp_claimed
    (groups : List (String × List (String × PyVal))) : Option ℚ :=
  UnraidMotherboardTempSensor.mb_patterns.findSome? (fun p =>
    groups.findSome? (fun g => g.2.findSome? (fun kv =>
      if strContains (strLower kv.1) (strLower p) then
        UnraidMotherboardTempSensor.parse_temperature (pyStr kv.2)
      else Option.none)))

/-! ## Helper lemmas -/

/-- The `-50 ≤ temp ≤ 150` filter of `_parse_temperature` only lets
in-range values through. -/
theorem range_of_filter (o : Option ℚ) (t : ℚ)
    (h : (match o with
          | some temp =>
              if -50 ≤ temp ∧ temp ≤ 150 then some temp else Option.none
          | Option.none => Option.none) = some t) :
    -50 ≤ t ∧ t ≤ 150 := by
  cases o with
  | none => simp at h
  | some temp =>
      have h' : (if -50 ≤ temp ∧ temp ≤ 150 then some temp else Option.none)
          = some t := h
      by_cases hr : -50 ≤ temp ∧ temp ≤ 150
      · rw [if_pos hr] at h'
        cases h'
        exact hr
      · rw [if_neg hr] at h'
        simp at h'

/-- Lemma: `_parse_temperature` returns a value only when it lies in
`[-50, 150]`. -/
theorem parse_temperature_range_aux (s : String) (t : ℚ)
    (h : UnraidCPUTempSensor.parse_temperature s = some t) :
    -50 ≤ t ∧ t ≤ 150 :=
  range_of_filter _ t h

/-- Round-half-to-even stays within half a unit of its argument. -/
theorem rhe_bounds (y : ℚ) :
    y - 1 / 2 ≤ (rhe y : ℚ) ∧ (rhe y : ℚ) ≤ y + 1 / 2 := by
  have h1 : (⌊y⌋ : ℚ) ≤ y := Int.floor_le y
  have h2 : y < (⌊y⌋ : ℚ) + 1 := Int.lt_floor_add_one y
  unfold rhe
  split_ifs with ha hb hc <;> constructor <;> push_cast <;> linarith

/-- Python `round(_, 1)` maps `[-50, 150]` into itself. -/
theorem roundTo1_bounds (x : ℚ) (hlo : -50 ≤ x) (hhi : x ≤ 150) :
    -50 ≤ roundTo1 x ∧ roundTo1 x ≤ 150 := by
  obtain ⟨hge, hle⟩ := rhe_bounds (10 * x)
  have hub : rhe (10 * x) ≤ 1500 := by
    have hq : (rhe (10 * x) : ℚ) < 1501 := by linarith
    have hz : rhe (10 * x) < 1501 := by exact_mod_cast hq
    omega
  have hlb : -500 ≤ rhe (10 * x) := by
    have hq : (-501 : ℚ) < (rhe (10 * x) : ℚ) := by linarith
    have hz : (-501 : ℤ) < rhe (10 * x) := by exact_mod_cast hq
    omega
  unfold roundTo1
  constructor
  · rw [le_div_iff₀ (by norm_num : (0 : ℚ) < 10)]
    have : (-500 : ℚ) ≤ (rhe (10 * x) : ℚ) := by exact_mod_cast hlb
    linarith
  · rw [div_le_iff₀ (by norm_num : (0 : ℚ) < 10)]
    have : (rhe (10 * x) : ℚ) ≤ 1500 := by exact_mod_cast hub
    linarith

/-- The average of a non-empty list of values in `[-50, 150]` lies in
`[-50, 150]`. -/
theorem avg_bounds (l : List ℚ) (hne : l ≠ [])
    (hb : ∀ t ∈ l, -50 ≤ t ∧ t ≤ 150) :
    -50 ≤ l.sum / (l.length : ℚ) ∧ l.sum / (l.length : ℚ) ≤ 150 := by
  have hlen : 0 < (l.length : ℚ) := by
    have := List.length_pos.mpr hne
    exact_mod_cast this
  have hup : l.sum ≤ (l.length : ℚ) * 150 := by
    have := List.sum_le_card_nsmul l 150 (fun x hx => (hb x hx).2)
    simpa [nsmul_eq_mul] using this
  have hdown : (l.length : ℚ) * (-50) ≤ l.sum := by
    have := List.card_nsmul_le_sum l (-50) (fun x hx => (hb x hx).1)
    simpa [nsmul_eq_mul] using this
  constructor
  · rw [le_div_iff₀ hlen]
    linarith
  · rw [div_le_iff₀ hlen]
    linarith

/-! ## Claim theorems -/

/-- C5: For every numeric temperature value parsed by the
temperature-string parser, a result is returned only when it lies within
`[-50, 150]`; any value outside that range is rejected (equivalently: a
returned value always lies in the range). -/
theorem parse_temperature_in_range (s : String) (t : ℚ)
    (h : UnraidCPUTempSensor.parse_temperature s = some t) :
    -50 ≤ t ∧ t ≤ 150 :=
  parse_temperature_range_aux s t h

/-- Witness for C5 at the concrete input `"60"`. -/
theorem parse_temperature_in_range_witness :
    UnraidCPUTempSensor.parse_temperature "60" = some 60 ∧
      (-50 ≤ (60 : ℚ) ∧ (60 : ℚ) ≤ 150) :=
  ⟨by with_unfolding_all rfl, parse_temperature_in_range "60" 60 (by with_unfolding_all rfl)⟩

/-- C6: The temperature-string parser applied to `"+45.0°C"` returns
`45.0`: the `°C` marker and the `+` sign are stripped before conversion. -/
theorem parse_temperature_example :
    UnraidCPUTempSensor.parse_temperature "+45.0°C" = some 45 := by
  with_unfolding_all rfl

/-- C9: The CPU sensor's `_parse_temperature` and the motherboard sensor's
`_parse_temperature` are extensionally equal (the two method bodies are
textually identical). -/
theorem parse_temperature_functions_agree (s : String) :
    UnraidCPUTempSensor.parse_temperature s
      = UnraidMotherboardTempSensor.parse_temperature s := rfl

/-- C1 counterexample: on a snapshot whose `system_stats` lacks
`memory_usage` entirely (so no `percentage` is present), the RAM usage
sensor's value function yields the NUMERIC value `0` — `round(0, 1)` of
the chained `.get` defaults — rather than any unavailable result; the
sensor also declares no `available_fn` that could mark it unavailable. -/
theorem ram_missing_percentage_yields_zero_cex :
    UnraidRAMUsageSensor.value_fn (.vDict [("system_stats", .vDict [])])
      = .ok (.vInt 0) := by
  with_unfolding_all rfl

/-- C1 amended: sensors that declare an `available_fn` (CPU usage, uptime)
report unavailable when their backing field is missing; the RAM usage
sensor declares none, and on a snapshot with no `memory_usage` its value
function yields the numeric default `0`. -/
theorem availability_on_missing_fields
    (es₁ es₂ es₃ : List (String × PyVal))
    (h1 : dictLookup es₁ "cpu_usage" = Option.none)
    (h2 : dictLookup es₂ "uptime" = Option.none)
    (h3 : dictLookup es₃ "memory_usage" = Option.none) :
    UnraidCPUUsageSensor.available_fn (.vDict [("system_stats", .vDict es₁)])
        = .ok false
    ∧ UnraidUptimeSensor.available_fn (.vDict [("system_stats", .vDict es₂)])
        = .ok false
    ∧ UnraidRAMUsageSensor.value_fn (.vDict [("system_stats", .vDict es₃)])
        = .ok (.vInt 0) := by
  refine ⟨?_, ?_, ?_⟩
  · simp [UnraidCPUUsageSensor.available_fn, pyContains, PyVal.getD,
      dictLookup, bind, Except.bind, pure, Except.pure, h1, PyVal.isNone]
  · simp [UnraidUptimeSensor.available_fn, pyContains, PyVal.getD,
      dictLookup, bind, Except.bind, pure, Except.pure, h2, PyVal.isNone]
  · simp [UnraidRAMUsageSensor.value_fn, PyVal.getD, dictLookup, bind,
      Except.bind, pure, Except.pure, h3, pyRound1]

/-- Witness for C1 (amended) at the empty `system_stats` dict. -/
theorem availability_on_missing_fields_witness :
    dictLookup [] "cpu_usage" = Option.none
    ∧ UnraidCPUUsageSensor.available_fn (.vDict [("system_stats", .vDict [])])
        = .ok false
    ∧ UnraidUptimeSensor.available_fn (.vDict [("system_stats", .vDict [])])
        = .ok false
    ∧ UnraidRAMUsageSensor.value_fn (.vDict [("system_stats", .vDict [])])
        = .ok (.vInt 0) :=
  ⟨rfl, (availability_on_missing_fields [] [] [] rfl rfl rfl).1,
    (availability_on_missing_fields [] [] [] rfl rfl rfl).2.1,
    (availability_on_missing_fields [] [] [] rfl rfl rfl).2.2⟩

/-- C2 counterexample: the RAM usage sensor's value function raises
(`AttributeError`) on `None` input — the claim's universally quantified
"never raises" part is false. -/
theorem ram_value_fn_raises_cex :
    UnraidRAMUsageSensor.value_fn .vNone = .error .attributeError := rfl

/-- C2 amended: the motherboard-temperature extractor catches every
extraction failure and never raises; the CPU-temperature extractor lets
`AttributeError` escape (its `except` clause lists only `KeyError`,
`ValueError`, `TypeError`); the uptime formatter also lets
`AttributeError` escape (its `except` clause lists only `TypeError`,
`ValueError`); and the RAM usage value function catches nothing, raising
`TypeError` on a non-numeric `percentage`. -/
theorem extraction_exception_behavior :
    (∀ data : PyVal,
        ∃ r, UnraidMotherboardTempSensor.get_temperature data = .ok r)
    ∧ UnraidCPUTempSensor.get_temperature
        (.vDict [("system_stats", .vStr "boot")]) = .error .attributeError
    ∧ (∀ now boot,
        UnraidUptimeSensor.format_uptime now .vNone boot
          = (.error .attributeError, boot))
    ∧ UnraidRAMUsageSensor.value_fn
        (.vDict [("system_stats", .vDict [("memory_usage",
          .vDict [("percentage", .vStr "high")])])]) = .error .typeError := by
  refine ⟨?_, ?_, ?_, ?_⟩
  · intro data
    unfold UnraidMotherboardTempSensor.get_temperature
    cases h : UnraidMotherboardTempSensor.get_temperature_body data with
    | ok r => exact ⟨r, rfl⟩
    | error e => exact ⟨Option.none, rfl⟩
  · with_unfolding_all rfl
  · intro now boot
    rfl
  · with_unfolding_all rfl

/-- C8: value extraction mutates no sensor state except the uptime
sensor's `_boot_time`: exactly when the uptime extraction-and-conversion
succeeds with value `u` is the cached boot time replaced by `now - u`; on
any failure (caught or not) it is left unchanged.  (Every other sensor's
extractor is a pure function of the snapshot — none of the other classes
assigns an attribute outside `__init__`.) -/
theorem uptime_boot_time_state (now : ℚ) (data : PyVal) (boot : Option ℚ) :
    (UnraidUptimeSensor.format_uptime now data boot).2 =
      match UnraidUptimeSensor.uptime_seconds data with
      | .ok u => some (now - u)
      | .error _ => boot := by
  unfold UnraidUptimeSensor.format_uptime
  cases h : UnraidUptimeSensor.uptime_seconds data with
  | ok u => rfl
  | error e => cases e <;> rfl

/-- Floor division of `Nat` casts agrees with `Nat` division. -/
theorem fdiv_natCast (a b : Nat) :
    Int.fdiv (a : ℤ) (b : ℤ) = ((a / b : ℕ) : ℤ) := by
  rw [Int.fdiv_eq_ediv _ (Int.ofNat_nonneg b)]
  exact_mod_cast rfl

/-- Floor remainder of `Nat` casts agrees with `Nat` remainder. -/
theorem fmod_natCast (a b : Nat) :
    Int.fmod (a : ℤ) (b : ℤ) = ((a % b : ℕ) : ℤ) := by
  rw [Int.fmod_eq_emod _ (Int.ofNat_nonneg b)]
  exact_mod_cast rfl

theorem fdiv_cast_86400 (a : Nat) :
    Int.fdiv (a : ℤ) (86400 : ℤ) = ((a / 86400 : ℕ) : ℤ) := by
  rw [show ((86400 : ℤ)) = ((86400 : ℕ) : ℤ) by norm_cast]
  exact fdiv_natCast a 86400

theorem fmod_cast_86400 (a : Nat) :
    Int.fmod (a : ℤ) (86400 : ℤ) = ((a % 86400 : ℕ) : ℤ) := by
  rw [show ((86400 : ℤ)) = ((86400 : ℕ) : ℤ) by norm_cast]
  exact fmod_natCast a 86400

theorem fdiv_cast_3600 (a : Nat) :
    Int.fdiv (a : ℤ) (3600 : ℤ) = ((a / 3600 : ℕ) : ℤ) := by
  rw [show ((3600 : ℤ)) = ((3600 : ℕ) : ℤ) by norm_cast]
  exact fdiv_natCast a 3600

theorem fmod_cast_3600 (a : Nat) :
    Int.fmod (a : ℤ) (3600 : ℤ) = ((a % 3600 : ℕ) : ℤ) := by
  rw [show ((3600 : ℤ)) = ((3600 : ℕ) : ℤ) by norm_cast]
  exact fmod_natCast a 3600

theorem fdiv_cast_60 (a : Nat) :
    Int.fdiv (a : ℤ) (60 : ℤ) = ((a / 60 : ℕ) : ℤ) := by
  rw [show ((60 : ℤ)) = ((60 : ℕ) : ℤ) by norm_cast]
  exact fdiv_natCast a 60

/-- Rendering a cast `Nat` as an `Int` gives the `Nat` rendering. -/
theorem toString_natCast (n : Nat) : toString ((n : ℕ) : ℤ) = toString n := rfl

/-- On the uptime snapshot shape, `uptime_seconds` is `float(v)`. -/
theorem uptime_seconds_snap (v : PyVal) :
    UnraidUptimeSensor.uptime_seconds
        (.vDict [("system_stats", .vDict [("uptime", v)])]) = pyFloat v := by
  simp [UnraidUptimeSensor.uptime_seconds, PyVal.getD, dictLookup, bind,
    Except.bind]

/-- C7: for a nonnegative uptime value that converts to `u` seconds,
`_format_uptime` decomposes the truncated seconds by successive division
by 86400, 3600 and 60, renders `"{d}d {h}h {m}m"`, and caches
`now - u` as the boot time. -/
theorem format_uptime_decomposition (now : ℚ) (boot : Option ℚ)
    (v : PyVal) (u : ℚ) (hv : pyFloat v = .ok u) (hu : 0 ≤ u) :
    UnraidUptimeSensor.format_uptime now
        (.vDict [("system_stats", .vDict [("uptime", v)])]) boot
      = (.ok (toString ((⌊u⌋).toNat / 86400) ++ "d " ++
            toString ((⌊u⌋).toNat % 86400 / 3600) ++ "h " ++
            toString ((⌊u⌋).toNat % 86400 % 3600 / 60) ++ "m"),
         some (now - u)) := by
  have hfl : int_of_float u = (((⌊u⌋).toNat : ℕ) : ℤ) := by
    unfold int_of_float
    rw [if_pos hu, Int.toNat_of_nonneg (Int.floor_nonneg.mpr hu)]
  unfold UnraidUptimeSensor.format_uptime
  rw [uptime_seconds_snap, hv]
  show (Except.ok (toString (Int.fdiv (int_of_float u) 86400) ++ "d " ++
      toString (Int.fdiv (Int.fmod (int_of_float u) 86400) 3600) ++ "h " ++
      toString (Int.fdiv (Int.fmod (Int.fmod (int_of_float u) 86400) 3600) 60)
        ++ "m"),
    some (now - u)) = _
  rw [hfl, fdiv_cast_86400, fmod_cast_86400, fdiv_cast_3600, fmod_cast_3600,
    fdiv_cast_60, toString_natCast, toString_natCast, toString_natCast]

/-- Witness for C7: 90000 seconds formats to `"1d 1h 0m"`. -/
theorem format_uptime_decomposition_witness :
    pyFloat (.vInt 90000) = .ok 90000 ∧ (0 : ℚ) ≤ 90000 ∧
    UnraidUptimeSensor.format_uptime 0
        (.vDict [("system_stats", .vDict [("uptime", .vInt 90000)])])
        Option.none
      = (.ok "1d 1h 0m", some (0 - 90000)) := by
  refine ⟨by with_unfolding_all rfl, by norm_num, ?_⟩
  have h := format_uptime_decomposition 0 Option.none (.vInt 90000) 90000
    (by with_unfolding_all rfl) (by norm_num)
  rw [h]
  with_unfolding_all rfl

/-- The `core_temps` loop over a list of well-formed (dict) groups
collects exactly the concatenation of the per-group extractions. -/
theorem collect_core_temps_map
    (groups : List (String × List (String × PyVal))) :
    UnraidCPUTempSensor.collect_core_temps
        (groups.map (fun g => PyVal.vDict g.2))
      = .ok (groups.flatMap
          (fun g => g.2.filterMap UnraidCPUTempSensor.item_temp)) := by
  induction groups with
  | nil => rfl
  | cons g gs ih =>
      simp [UnraidCPUTempSensor.collect_core_temps, dictItems, bind,
        Except.bind, ih]

/-- C3 counterexample: on the sensor group
`{"cpu temp": "40", "CPU Temp": "0"}` the CPU-temperature sensor returns
no value (the lowercase key fails the case-sensitive match and the parsed
`0` is dropped as falsy), while the claim's reading — case-insensitive
matching, all parsed values averaged — predicts `20.0`. -/
theorem cpu_temp_case_insensitive_cex :
    UnraidCPUTempSensor.get_temperature
        (mkTempSnap [("s", [("cpu temp", .vStr "40"), ("CPU Temp", .vStr "0")])])
      = .ok Option.none
    ∧ cpu_temp_claimed [("s", [("cpu temp", .vStr "40"), ("CPU Temp", .vStr "0")])]
      = some 20 := by
  constructor
  · with_unfolding_all rfl
  · with_unfolding_all rfl

/-- C3 amended: for every well-formed sensors section, the CPU-temperature
sensor returns the average (rounded to one decimal) of the successfully
parsed values whose metric key contains `"CPU"` and `"Temp"` as
CASE-SENSITIVE substrings, parsed values equal to `0` being dropped
(walrus truthiness), and no value when no reading remains. -/
theorem cpu_temp_average_of_matches
    (groups : List (String × List (String × PyVal))) :
    UnraidCPUTempSensor.get_temperature (mkTempSnap groups)
      = .ok (cpu_temp_of_groups groups) := by
  have hmap : (groups.map (fun g => (g.1, PyVal.vDict g.2))).map Prod.snd
      = groups.map (fun g => PyVal.vDict g.2) := by
    simp
  have h0 : UnraidCPUTempSensor.get_temperature_body (mkTempSnap groups)
      = Except.bind (UnraidCPUTempSensor.collect_core_temps
          ((groups.map (fun g => (g.1, PyVal.vDict g.2))).map Prod.snd))
          (fun core_temps =>
            if core_temps.length ≠ 0 then
              Except.ok (some (roundTo1
                (core_temps.sum / (core_temps.length : ℚ))))
            else
              Except.ok Option.none) := rfl
  have hbody : UnraidCPUTempSensor.get_temperature_body (mkTempSnap groups)
      = .ok (cpu_temp_of_groups groups) := by
    rw [h0, hmap, collect_core_temps_map]
    unfold cpu_temp_of_groups avg_round1
    show (if (groups.flatMap
            (fun g => g.2.filterMap UnraidCPUTempSensor.item_temp)).length ≠ 0
          then _ else _) = _
    split_ifs <;> rfl
  unfold UnraidCPUTempSensor.get_temperature
  rw [hbody]

/-- The innermost motherboard scan loop is a first-match search with
`item_temp`. -/
theorem scan_items_eq (p : String) (items : List (String × PyVal)) :
    UnraidMotherboardTempSensor.scan_items p items
      = items.findSome? (UnraidMotherboardTempSensor.item_temp p) := by
  induction items with
  | nil => rfl
  | cons kv rest ih =>
      rw [List.findSome?_cons]
      show (if kv.2.isStrOrFloat && strContains (strLower kv.1) p then
          match UnraidMotherboardTempSensor.parse_temperature (pyStr kv.2) with
          | some t => some t
          | Option.none => UnraidMotherboardTempSensor.scan_items p rest
        else UnraidMotherboardTempSensor.scan_items p rest) = _
      unfold UnraidMotherboardTempSensor.item_temp
      by_cases hc : (kv.2.isStrOrFloat && strContains (strLower kv.1) p) = true
      · rw [if_pos hc, if_pos hc]
        cases UnraidMotherboardTempSensor.parse_temperature (pyStr kv.2) with
        | none => exact ih
        | some t => rfl
      · rw [if_neg hc, if_neg hc]
        exact ih

/-- The middle motherboard scan loop over well-formed (dict) groups is a
first-match search across groups. -/
theorem scan_sensors_eq (p : String)
    (groups : List (String × List (String × PyVal))) :
    UnraidMotherboardTempSensor.scan_sensors p
        (groups.map (fun g => PyVal.vDict g.2))
      = .ok (groups.findSome? (fun g =>
          g.2.findSome? (UnraidMotherboardTempSensor.item_temp p))) := by
  induction groups with
  | nil => rfl
  | cons g gs ih =>
      rw [List.findSome?_cons]
      show (match UnraidMotherboardTempSensor.scan_items p g.2 with
        | some t => Except.ok (some t)
        | Option.none => UnraidMotherboardTempSensor.scan_sensors p
            (gs.map (fun g : String × List (String × PyVal) =>
              PyVal.vDict g.2))) = _
      rw [scan_items_eq]
      cases g.2.findSome? (UnraidMotherboardTempSensor.item_temp p) with
      | none => exact ih
      | some t => rfl

/-- The outer motherboard scan loop over the pattern list is a first-match
search in pattern priority order. -/
theorem scan_patterns_eq (groups : List (String × List (String × PyVal)))
    (pats : List String) :
    UnraidMotherboardTempSensor.scan_patterns
        (groups.map (fun g => PyVal.vDict g.2)) pats
      = .ok (pats.findSome? (fun p => groups.findSome? (fun g =>
          g.2.findSome?
            (UnraidMotherboardTempSensor.item_temp (strLower p))))) := by
  induction pats with
  | nil => rfl
  | cons p ps ih =>
      rw [List.findSome?_cons]
      have h0 : UnraidMotherboardTempSensor.scan_patterns
          (groups.map (fun g => PyVal.vDict g.2)) (p :: ps)
        = Except.bind (UnraidMotherboardTempSensor.scan_sensors (strLower p)
            (groups.map (fun g => PyVal.vDict g.2)))
            (fun r => match r with
              | some t => Except.ok (some t)
              | Option.none => UnraidMotherboardTempSensor.scan_patterns
                  (groups.map (fun g => PyVal.vDict g.2)) ps) := rfl
      rw [h0, scan_sensors_eq]
      cases groups.findSome? (fun g =>
          g.2.findSome? (UnraidMotherboardTempSensor.item_temp (strLower p)))
        with
      | none => exact ih
      | some t => rfl

/-- C4 counterexample: with the single reading `{"MB Temp": 45}` stored as
a Python `int`, the motherboard sensor returns no value (the
`isinstance(value, (str, float))` guard skips ints), while the claim —
return the first value that parses to a valid number — predicts `45.0`. -/
theorem mb_temp_skips_int_cex :
    UnraidMotherboardTempSensor.get_temperature
        (mkTempSnap [("s", [("MB Temp", .vInt 45)])]) = .ok Option.none
    ∧ mb_temp_claimed [("s", [("MB Temp", .vInt 45)])] = some 45 := by
  constructor
  · with_unfolding_all rfl
  · with_unfolding_all rfl

/-- C4 amended: for every well-formed sensors section, the motherboard
sensor tries the patterns in their listed priority order, scanning all
groups for each pattern, and — among entries whose value is a `str` or
`float` (ints and other types are skipped by the `isinstance` guard) —
returns the first value that parses to a valid number, `None` when no
pattern yields one. -/
theorem mb_temp_first_valid_match
    (groups : List (String × List (String × PyVal))) :
    UnraidMotherboardTempSensor.get_temperature (mkTempSnap groups)
      = .ok (mb_temp_of_groups groups) := by
  have hmap : (groups.map (fun g => (g.1, PyVal.vDict g.2))).map Prod.snd
      = groups.map (fun g => PyVal.vDict g.2) := by
    simp
  have h0 : UnraidMotherboardTempSensor.get_temperature_body (mkTempSnap groups)
      = UnraidMotherboardTempSensor.scan_patterns
          ((groups.map (fun g => (g.1, PyVal.vDict g.2))).map Prod.snd)
          UnraidMotherboardTempSensor.mb_patterns := rfl
  have hbody : UnraidMotherboardTempSensor.get_temperature_body
      (mkTempSnap groups) = .ok (mb_temp_of_groups groups) := by
    rw [h0, hmap, scan_patterns_eq]
    rfl
  unfold UnraidMotherboardTempSensor.get_temperature
  rw [hbody]

/-- Any reading contributed by the CPU item extraction is in range. -/
theorem item_temp_range (kv : String × PyVal) (t : ℚ)
    (h : UnraidCPUTempSensor.item_temp kv = some t) :
    -50 ≤ t ∧ t ≤ 150 := by
  unfold UnraidCPUTempSensor.item_temp at h
  by_cases hc : (strContains kv.1 "CPU" && strContains kv.1 "Temp") = true
  · rw [if_pos hc] at h
    cases hp : UnraidCPUTempSensor.parse_temperature (pyStr kv.2) with
    | none => rw [hp] at h; simp at h
    | some t' =>
        rw [hp] at h
        have h2 : (if t' ≠ 0 then some t' else Option.none) = some t := h
        by_cases hz : t' ≠ 0
        · rw [if_pos hz] at h2
          cases h2
          exact parse_temperature_range_aux _ _ hp
        · rw [if_neg hz] at h2
          simp at h2
  · rw [if_neg hc] at h
    simp at h

/-- Every temperature collected by the `core_temps` loop is in range. -/
theorem collect_core_temps_range :
    ∀ (svals : List PyVal) (temps : List ℚ),
      UnraidCPUTempSensor.collect_core_temps svals = .ok temps →
      ∀ t ∈ temps, -50 ≤ t ∧ t ≤ 150 := by
  intro svals
  induction svals with
  | nil =>
      intro temps h t ht
      simp [UnraidCPUTempSensor.collect_core_temps] at h
      subst h
      simp at ht
  | cons sd rest ih =>
      intro temps h t ht
      unfold UnraidCPUTempSensor.collect_core_temps at h
      cases hsd : dictItems sd with
      | error e => rw [hsd] at h; simp [bind, Except.bind] at h
      | ok items =>
          rw [hsd] at h
          cases hrest : UnraidCPUTempSensor.collect_core_temps rest with
          | error e => rw [hrest] at h; simp [bind, Except.bind] at h
          | ok more =>
              rw [hrest] at h
              simp [bind, Except.bind] at h
              subst h
              rcases List.mem_append.mp ht with hin | hin
              · obtain ⟨kv, _, hkv⟩ := List.mem_filterMap.mp hin
                exact item_temp_range kv t hkv
              · exact ih more hrest t hin

/-- C10: whenever the CPU-temperature sensor returns a numeric value, that
value lies within `[-50, 150]`: the rounded average of readings that each
passed the parser's range filter stays in the range. -/
theorem cpu_temp_value_in_range (data : PyVal) (v : ℚ)
    (h : UnraidCPUTempSensor.get_temperature data = .ok (some v)) :
    -50 ≤ v ∧ v ≤ 150 := by
  unfold UnraidCPUTempSensor.get_temperature at h
  cases hb : UnraidCPUTempSensor.get_temperature_body data with
  | error e => rw [hb] at h; cases e <;> simp at h
  | ok r =>
      rw [hb] at h
      simp at h
      subst h
      unfold UnraidCPUTempSensor.get_temperature_body at hb
      cases h1 : data.getItem "system_stats" with
      | error e => rw [h1] at hb; simp [bind, Except.bind] at hb
      | ok ss =>
          rw [h1] at hb
          simp only [bind, Except.bind] at hb
          cases h2 : ss.getD "temperature_data" (.vDict []) with
          | error e => rw [h2] at hb; simp [bind, Except.bind] at hb
          | ok td =>
              rw [h2] at hb
              simp only [bind, Except.bind] at hb
              cases h3 : td.getD "sensors" (.vDict []) with
              | error e => rw [h3] at hb; simp [bind, Except.bind] at hb
              | ok sen =>
                  rw [h3] at hb
                  simp only [bind, Except.bind] at hb
                  cases h4 : dictValues sen with
                  | error e => rw [h4] at hb; simp [bind, Except.bind] at hb
                  | ok svals =>
                      rw [h4] at hb
                      simp only [bind, Except.bind] at hb
                      cases h5 : UnraidCPUTempSensor.collect_core_temps svals
                        with
                      | error e =>
                          rw [h5] at hb; simp [bind, Except.bind] at hb
                      | ok temps =>
                          rw [h5] at hb
                          simp only [bind, Except.bind] at hb
                          by_cases hlen : temps.length ≠ 0
                          · rw [if_pos hlen] at hb
                            simp at hb
                            have hne : temps ≠ [] := by
                              intro hemp
                              rw [hemp] at hlen
                              exact hlen rfl
                            obtain ⟨hlo, hhi⟩ := avg_bounds temps hne
                              (collect_core_temps_range svals temps h5)
                            have hr := roundTo1_bounds
                              (temps.sum / (temps.length : ℚ)) hlo hhi
                            rwa [hb] at hr
                          · rw [if_neg hlen] at hb
                            simp at hb

/-- Witness for C10 at a one-reading snapshot: the sensor reports `45.0`,
which is inside `[-50, 150]`. -/
theorem cpu_temp_value_in_range_witness :
    UnraidCPUTempSensor.get_temperature
        (mkTempSnap [("cpu", [("CPU Temp", .vStr "45")])]) = .ok (some 45)
    ∧ (-50 ≤ (45 : ℚ) ∧ (45 : ℚ) ≤ 150) :=
  ⟨by with_unfolding_all rfl,
    cpu_temp_value_in_range (mkTempSnap [("cpu", [("CPU Temp", .vStr "45")])])
      45 (by with_unfolding_all rfl)⟩
